import Mathlib

/-!
Shallow embedding of the supervisor loop in src/backend/watchdog.py
(class BotGuardian).  Python time is modelled as Nat seconds, pids as
Nat, the OS process table as a function from pid to aliveness, and the
observable outcomes of the OS and network calls (exceptions raised by
taskkill / os.kill / wait, by Popen, by requests.get and by
response.json) as explicit event inputs, so every except-branch of the
source is a reachable case of the model.
-/

namespace Watchdog

/-- Configuration constant, watchdog.py line 35. -/
def CHECK_INTERVAL : Nat := 60

/-- Configuration constant, watchdog.py line 36: restart threshold. -/
def MAX_TIMEOUTS : Nat := 3

/-- Configuration constant, watchdog.py line 37 (10 minutes). -/
def STALE_DATA_THRESHOLD : Nat := 600

/-- The body of an HTTP response as far as check_health inspects it:
response.json() either raises (malformed), or yields an object whose
is_running field is a boolean, or an object without that field. -/
inductive JsonBody where
  | fieldBool (b : Bool)
  | fieldMissing
  | malformed
deriving DecidableEq

/-- Outcome of requests.get(API_URL, timeout=10): either a response with
a status code and body, or a raised exception (timeout or connection
failure). -/
inductive HttpOutcome where
  | response (status : Nat) (body : JsonBody)
  | netError
deriving DecidableEq

/-- The mutable fields of BotGuardian (watchdog.py lines 40 to 44).
self.process is modelled as the pid of the held child, if any. -/
structure GuardianState where
  process : Option Nat
  failed_checks : Nat
  last_success_time : Nat
  is_running : Bool
deriving DecidableEq

/-- The OS process table: which pids are currently alive. -/
abbrev ProcTable := Nat → Bool

/-- Remove a pid from the set of live processes. -/
def killPid (pt : ProcTable) (p : Nat) : ProcTable :=
  fun q => if q = p then false else pt q

/-- Mark a pid live. -/
def spawnPid (pt : ProcTable) (p : Nat) : ProcTable :=
  fun q => if q = p then true else pt q

/-- Observable outcome of the two termination attempts inside stop_bot
(watchdog.py lines 75 to 86): gracefulOk is true when the
taskkill / os.kill plus wait sequence completes without exception;
killRaises is true when the fallback self.process.kill() raises (that
exception is swallowed by the inner bare except). -/
structure StopEv where
  gracefulOk : Bool
  killRaises : Bool
deriving DecidableEq

/-- stop_bot, watchdog.py lines 71 to 88.  If a process is held, try the
graceful termination; on exception fall back to kill(); whatever those
raise, finish by clearing self.process.  If no process is held, do
nothing. -/
def stop_bot (ev : StopEv) (st : GuardianState) (pt : ProcTable) :
    GuardianState × ProcTable :=
  match st.process with
  | none => (st, pt)
  | some p =>
      let ptAfter :=
        if ev.gracefulOk then killPid pt p
        else if ev.killRaises then pt else killPid pt p
      ({ st with process := none }, ptAfter)

/-- Observable outcome of one start_bot attempt (watchdog.py lines 46 to
69): spawn is the pid of the new child when the log-file opens and
subprocess.Popen succeed, and none when any of them raises (the except
branch only logs).  now is the value of time.time() at line 66. -/
structure StartEv where
  stopEv : StopEv
  spawn : Option Nat
  now : Nat
deriving DecidableEq

/-- start_bot, watchdog.py lines 46 to 69: stop the held process first
if there is one, then try to spawn; only after a successful spawn are
failed_checks and last_success_time reset. -/
def start_bot (ev : StartEv) (st : GuardianState) (pt : ProcTable) :
    GuardianState × ProcTable :=
  let s1 := if st.process.isSome then stop_bot ev.stopEv st pt else (st, pt)
  match ev.spawn with
  | none => s1
  | some pid =>
      ({ s1.1 with
          process := some pid
          failed_checks := 0
          last_success_time := ev.now },
       spawnPid s1.2 pid)

/-- The exceptions that the try block of check_health can raise. -/
inductive ProbeExn where
  | requestError
  | parseError
deriving DecidableEq

/-- The try block of check_health (watchdog.py lines 92 to 107): a
raised exception is an Except.error, a normal exit from the try block
is Except.ok carrying the returned flag (true only on the status 200
path, which also resets failed_checks and last_success_time; a non-200
status leaves the try block normally and falls through).  Note that
data.get with default True makes a missing is_running field a success,
while a body that fails to parse raises inside the try. -/
def check_health_try (o : HttpOutcome) (st : GuardianState) (now : Nat) :
    Except ProbeExn (Bool × GuardianState) :=
  match o with
  | .netError => .error .requestError
  | .response status body =>
      if status = 200 then
        match body with
        | .malformed => .error .parseError
        | .fieldBool _ =>
            .ok (true, { st with failed_checks := 0, last_success_time := now })
        | .fieldMissing =>
            .ok (true, { st with failed_checks := 0, last_success_time := now })
      else
        .ok (false, st)

/-- check_health, watchdog.py lines 90 to 113: the except Exception
branch swallows the exception, and both the non-200 fall-through and
the exception path increment failed_checks and return False. -/
def check_health (o : HttpOutcome) (st : GuardianState) (now : Nat) :
    Bool × GuardianState :=
  match check_health_try o st now with
  | .ok (true, st1) => (true, st1)
  | .ok (false, st1) => (false, { st1 with failed_checks := st1.failed_checks + 1 })
  | .error _ => (false, { st with failed_checks := st.failed_checks + 1 })

/-- The events of one iteration of the while loop in run (watchdog.py
lines 121 to 143): a normal pass through the try block (with the spawn
and probe outcomes it may consume), a KeyboardInterrupt, or any other
exception (handled by the final except, which only logs and sleeps). -/
inductive LoopEvent where
  | normal (deadRestart : StartEv) (probe : HttpOutcome) (probeNow : Nat)
      (failRestart : StartEv)
  | interrupt (stopEv : StopEv)
  | unexpected
deriving DecidableEq

/-- Whether a loop event is the KeyboardInterrupt. -/
def LoopEvent.isInterrupt : LoopEvent → Bool
  | .interrupt _ => true
  | _ => false

/-- self.process and self.process.poll() is not None, watchdog.py line
124: the held child, if any, has exited at OS level. -/
def pollDead (st : GuardianState) (pt : ProcTable) : Bool :=
  match st.process with
  | some p => !(pt p)
  | none => false

/-- One iteration of the while loop in run, watchdog.py lines 121 to
143.  Normal pass: if the held process is dead, start_bot immediately;
then run check_health and, when it fails and failed_checks has reached
MAX_TIMEOUTS, start_bot again.  KeyboardInterrupt: clear is_running and
stop_bot.  Any other exception: state unchanged, loop continues. -/
def runIter (ev : LoopEvent) (st : GuardianState) (pt : ProcTable) :
    GuardianState × ProcTable :=
  match ev with
  | .interrupt stopEv =>
      stop_bot stopEv { st with is_running := false } pt
  | .unexpected => (st, pt)
  | .normal deadRestart probe probeNow failRestart =>
      let s1 := if pollDead st pt then start_bot deadRestart st pt else (st, pt)
      let c := check_health probe s1.1 probeNow
      if c.1 = false ∧ MAX_TIMEOUTS ≤ c.2.failed_checks then
        start_bot failRestart c.2 s1.2
      else (c.2, s1.2)

/-- The while loop of run over a (finite) schedule of events: each
iteration runs only while is_running holds, watchdog.py line 121. -/
def runLoop : List LoopEvent → GuardianState → ProcTable →
    GuardianState × ProcTable
  | [], st, pt => (st, pt)
  | ev :: evs, st, pt =>
      if st.is_running then
        let s := runIter ev st pt
        runLoop evs s.1 s.2
      else (st, pt)

/-- Feed a sequence of probe outcomes through check_health, recording
whether the restart condition of run (watchdog.py lines 130 to 131,
check failed and failed_checks at least MAX_TIMEOUTS) fired at any
tick.  No restart is performed, so the counter evolution of an
uninterrupted failure streak is visible. -/
def probeSeq (probes : List HttpOutcome) (st : GuardianState) (now : Nat) :
    GuardianState × Bool :=
  probes.foldl
    (fun acc o =>
      let c := check_health o acc.1 now
      (c.2, acc.2 || (!c.1 && decide (MAX_TIMEOUTS ≤ c.2.failed_checks))))
    (st, false)

/-- The four-valued health classification of section 4.2 of the spec. -/
inductive HealthStatus where
  | healthy
  | idle
  | unreachable
  | unhealthy (code : Nat)
deriving DecidableEq

/-- Classification of one HTTP outcome as check_health actually treats
it: only status 200 is success-eligible; a 200 body with a boolean
is_running field is healthy or idle; a 200 body without the field is
healthy (fail-open); a 200 body that fails to parse raises and lands in
the exception path, like a network error; any other status is unhealthy
with that code. -/
def codeClassify : HttpOutcome → HealthStatus
  | .netError => .unreachable
  | .response status body =>
      if status = 200 then
        match body with
        | .fieldBool true => .healthy
        | .fieldBool false => .idle
        | .fieldMissing => .healthy
        | .malformed => .unreachable
      else
        .unhealthy status

/-- Classification exactly as the claim words it: non-2xx is unhealthy,
network failure is unreachable, a 2xx with a boolean field is healthy
or idle, and a 2xx with a malformed body or a missing field defaults to
healthy. -/
def specClassify : HttpOutcome → HealthStatus
  | .netError => .unreachable
  | .response status body =>
      if 200 ≤ status ∧ status < 300 then
        match body with
        | .fieldBool true => .healthy
        | .fieldBool false => .idle
        | .fieldMissing => .healthy
        | .malformed => .healthy
      else
        .unhealthy status

/-! ### Helper lemmas -/

/-- stop_bot never touches the failure-tracking fields. -/
theorem stop_bot_preserves_counters (ev : StopEv) (st : GuardianState)
    (pt : ProcTable) :
    (stop_bot ev st pt).1.failed_checks = st.failed_checks ∧
      (stop_bot ev st pt).1.last_success_time = st.last_success_time ∧
      (stop_bot ev st pt).1.is_running = st.is_running := by
  unfold stop_bot
  cases st.process <;> simp

/-- check_health never touches the process handle or the run flag. -/
theorem check_health_preserves_handle (o : HttpOutcome) (st : GuardianState)
    (now : Nat) :
    (check_health o st now).2.process = st.process ∧
      (check_health o st now).2.is_running = st.is_running := by
  unfold check_health check_health_try
  cases o with
  | netError => simp
  | response status body =>
      by_cases h : status = 200 <;> cases body <;> simp [h]

/-- check_health increments failed_checks by at most one. -/
theorem check_health_failed_le (o : HttpOutcome) (st : GuardianState)
    (now : Nat) :
    (check_health o st now).2.failed_checks ≤ st.failed_checks + 1 := by
  unfold check_health check_health_try
  cases o with
  | netError => simp
  | response status body =>
      by_cases h : status = 200 <;> cases body <;> simp [h]

/-- start_bot does not change is_running. -/
theorem start_bot_preserves_run_flag (ev : StartEv) (st : GuardianState)
    (pt : ProcTable) :
    (start_bot ev st pt).1.is_running = st.is_running := by
  unfold start_bot
  cases hs : ev.spawn <;> by_cases h : st.process.isSome <;>
    simp [h, hs, (stop_bot_preserves_counters ev.stopEv st pt).2.2]

/-- stop_bot always clears the held handle. -/
theorem stop_bot_handle_none (ev : StopEv) (st : GuardianState)
    (pt : ProcTable) : (stop_bot ev st pt).1.process = none := by
  unfold stop_bot
  cases hp : st.process <;> simp [hp]

/-- A successful spawn installs the new pid and resets the failure
window. -/
theorem start_bot_spawn_some (ev : StartEv) (st : GuardianState)
    (pt : ProcTable) (q : Nat) (hq : ev.spawn = some q) :
    (start_bot ev st pt).1.process = some q ∧
      (start_bot ev st pt).1.failed_checks = 0 ∧
      (start_bot ev st pt).1.last_success_time = ev.now ∧
      (start_bot ev st pt).2 q = true := by
  unfold start_bot
  by_cases h : st.process.isSome <;> simp [h, hq, spawnPid]

/-- A non-interrupt iteration of the loop never changes is_running. -/
theorem runIter_preserves_run_flag (ev : LoopEvent) (st : GuardianState)
    (pt : ProcTable) (h : ev.isInterrupt = false) :
    (runIter ev st pt).1.is_running = st.is_running := by
  cases ev with
  | interrupt sev => simp [LoopEvent.isInterrupt] at h
  | unexpected => rfl
  | normal dr probe pn fr =>
      unfold runIter
      by_cases hd : pollDead st pt
      · have h1 := start_bot_preserves_run_flag dr st pt
        have h2 := (check_health_preserves_handle probe
          (start_bot dr st pt).1 pn).2
        by_cases hc : (check_health probe (start_bot dr st pt).1 pn).1 =
            false ∧ MAX_TIMEOUTS ≤
              (check_health probe (start_bot dr st pt).1 pn).2.failed_checks
        · simp only [hd, hc, if_true, if_pos]
          exact (start_bot_preserves_run_flag fr
            (check_health probe (start_bot dr st pt).1 pn).2
            (start_bot dr st pt).2).trans (h2.trans h1)
        · simp [hd, hc, h2, h1]
      · have h2 := (check_health_preserves_handle probe st pn).2
        by_cases hc : (check_health probe st pn).1 = false ∧
            MAX_TIMEOUTS ≤ (check_health probe st pn).2.failed_checks
        · simpa [hd, hc] using
            (start_bot_preserves_run_flag fr (check_health probe st pn).2
              pt).trans h2
        · simp [hd, hc, h2]

/-! ### C9: a failed spawn preserves the failure-tracking state -/

/-- C9: if the spawn raises, start_bot leaves failed_checks and
last_success_time exactly as they were, because the resets at lines 65
and 66 of watchdog.py run only after subprocess.Popen has succeeded. -/
theorem start_bot_spawn_failure_preserves_counters (ev : StartEv)
    (st : GuardianState) (pt : ProcTable) (hs : ev.spawn = none) :
    (start_bot ev st pt).1.failed_checks = st.failed_checks ∧
      (start_bot ev st pt).1.last_success_time = st.last_success_time := by
  unfold start_bot
  by_cases h : st.process.isSome <;>
    simp [h, hs, (stop_bot_preserves_counters ev.stopEv st pt).1,
      (stop_bot_preserves_counters ev.stopEv st pt).2.1]

/-- Witness for C9 at a concrete state with a held process, a failure
streak of 2 and a stale clock. -/
theorem start_bot_spawn_failure_preserves_counters_spot :
    (start_bot ⟨⟨false, true⟩, none, 99⟩ ⟨some 4, 2, 17, true⟩
        (fun q => decide (q = 4))).1.failed_checks = 2 ∧
      (start_bot ⟨⟨false, true⟩, none, 99⟩ ⟨some 4, 2, 17, true⟩
        (fun q => decide (q = 4))).1.last_success_time = 17 := by
  have h := start_bot_spawn_failure_preserves_counters
    ⟨⟨false, true⟩, none, 99⟩ ⟨some 4, 2, 17, true⟩
    (fun q => decide (q = 4)) rfl
  exact ⟨h.1, h.2⟩

/-! ### C10: stop_bot always releases the handle -/

/-- C10: after stop_bot the supervisor holds no process handle, whatever
the two termination attempts raised (both exceptions are swallowed, and
self.process = None at line 87 of watchdog.py runs unconditionally once
the guard at line 73 was taken); and when no process is held, stop_bot
changes nothing at all. -/
theorem stop_bot_releases_handle :
    (∀ (ev : StopEv) (st : GuardianState) (pt : ProcTable),
        (stop_bot ev st pt).1.process = none) ∧
      (∀ (ev : StopEv) (st : GuardianState) (pt : ProcTable),
        st.process = none → stop_bot ev st pt = (st, pt)) := by
  constructor
  · intro ev st pt
    unfold stop_bot
    cases hp : st.process <;> simp [hp]
  · intro ev st pt h
    unfold stop_bot
    rw [h]

/-- Witness for C10: the no-op branch at a concrete handle-free state,
and the unconditional release when both termination attempts raise. -/
theorem stop_bot_releases_handle_spot :
    stop_bot ⟨false, true⟩ ⟨none, 1, 5, true⟩ (fun _ => false) =
        (⟨none, 1, 5, true⟩, (fun _ => false)) ∧
      (stop_bot ⟨false, true⟩ ⟨some 3, 1, 5, true⟩ (fun _ => true)).1.process
        = none :=
  ⟨stop_bot_releases_handle.2 ⟨false, true⟩ ⟨none, 1, 5, true⟩
      (fun _ => false) rfl,
    stop_bot_releases_handle.1 ⟨false, true⟩ ⟨some 3, 1, 5, true⟩
      (fun _ => true)⟩

/-! ### C6: reset discipline of the failure window -/

/-- C6: after any probe that check_health reports as a success (the
status-200 paths, covering both the active and the idle bot),
failed_checks is exactly 0 and last_success_time is the probe time;
after any restart whose spawn succeeded, failed_checks is 0 and
last_success_time is the restart time; a failed probe only increments
the counter (never resets it) and leaves the success clock alone; and
stop_bot touches neither.  failed_checks lives in Nat, so it is never
negative by construction. -/
theorem counter_reset_discipline :
    (∀ (o : HttpOutcome) (st : GuardianState) (now : Nat),
        (check_health o st now).1 = true →
          (check_health o st now).2.failed_checks = 0 ∧
            (check_health o st now).2.last_success_time = now) ∧
      (∀ (ev : StartEv) (st : GuardianState) (pt : ProcTable) (q : Nat),
        ev.spawn = some q →
          (start_bot ev st pt).1.failed_checks = 0 ∧
            (start_bot ev st pt).1.last_success_time = ev.now) ∧
      (∀ (o : HttpOutcome) (st : GuardianState) (now : Nat),
        (check_health o st now).1 = false →
          (check_health o st now).2.failed_checks = st.failed_checks + 1 ∧
            (check_health o st now).2.last_success_time =
              st.last_success_time) ∧
      (∀ (ev : StopEv) (st : GuardianState) (pt : ProcTable),
        (stop_bot ev st pt).1.failed_checks = st.failed_checks ∧
          (stop_bot ev st pt).1.last_success_time = st.last_success_time) := by
  refine ⟨?_, ?_, ?_, ?_⟩
  · intro o st now h
    unfold check_health check_health_try at *
    cases o with
    | netError => simp at h
    | response status body =>
        by_cases hs : status = 200 <;> cases body <;> simp [hs] at h ⊢
  · intro ev st pt q hq
    unfold start_bot
    by_cases h : st.process.isSome <;> simp [h, hq]
  · intro o st now h
    unfold check_health check_health_try at *
    cases o with
    | netError => simp
    | response status body =>
        by_cases hs : status = 200 <;> cases body <;> simp [hs] at h ⊢
  · intro ev st pt
    exact ⟨(stop_bot_preserves_counters ev st pt).1,
      (stop_bot_preserves_counters ev st pt).2.1⟩

/-- Witness for C6 at concrete inputs: an idle-bot 200 response resets
the counter, a successful restart resets it, a network error increments
it without touching the clock, and stop_bot preserves it. -/
theorem counter_reset_discipline_spot :
    ((check_health (.response 200 (.fieldBool false)) ⟨some 2, 2, 3, true⟩
          44).2.failed_checks = 0 ∧
        (check_health (.response 200 (.fieldBool false)) ⟨some 2, 2, 3, true⟩
          44).2.last_success_time = 44) ∧
      ((start_bot ⟨⟨true, false⟩, some 8, 70⟩ ⟨some 2, 2, 3, true⟩
          (fun q => decide (q = 2))).1.failed_checks = 0 ∧
        (start_bot ⟨⟨true, false⟩, some 8, 70⟩ ⟨some 2, 2, 3, true⟩
          (fun q => decide (q = 2))).1.last_success_time = 70) ∧
      ((check_health .netError ⟨some 2, 2, 3, true⟩ 44).2.failed_checks = 3 ∧
        (check_health .netError ⟨some 2, 2, 3, true⟩
          44).2.last_success_time = 3) := by
  refine ⟨counter_reset_discipline.1 _ _ _ rfl,
    counter_reset_discipline.2.1 ⟨⟨true, false⟩, some 8, 70⟩ _ _ 8 rfl, ?_⟩
  have h := counter_reset_discipline.2.2.1 .netError ⟨some 2, 2, 3, true⟩ 44
    rfl
  exact ⟨h.1, h.2⟩

/-! ### C7: check_health never raises past its boundary -/

/-- C7: check_health is total: every HTTP outcome, including every
exception the try block can raise (network failure, timeout, malformed
body), resolves to a returned boolean plus updated state; in the
exception case the blanket except of watchdog.py lines 108 to 110
converts the raise into the ordinary failure return, incrementing
failed_checks by one. -/
theorem check_health_never_raises :
    ∀ (o : HttpOutcome) (st : GuardianState) (now : Nat),
      (∃ b st1, check_health o st now = (b, st1)) ∧
        (∀ e : ProbeExn, check_health_try o st now = .error e →
          check_health o st now =
            (false, { st with failed_checks := st.failed_checks + 1 })) := by
  intro o st now
  refine ⟨⟨_, _, rfl⟩, ?_⟩
  intro e he
  unfold check_health
  rw [he]

/-- Witness for C7: the raised-timeout path at a concrete state is
converted into the failure return. -/
theorem check_health_never_raises_spot :
    check_health .netError ⟨some 5, 1, 9, true⟩ 32 =
      (false, ⟨some 5, 2, 9, true⟩) :=
  (check_health_never_raises .netError ⟨some 5, 1, 9, true⟩ 32).2
    .requestError rfl

/-! ### C2: the restart decision fires exactly at the threshold -/

/-- C2: starting from a zeroed failure counter, a streak of
MAX_TIMEOUTS minus one consecutive unreachable probes never makes the
restart condition of run (check failed and failed_checks at least
MAX_TIMEOUTS, watchdog.py lines 130 to 131) fire, while a streak of
MAX_TIMEOUTS consecutive unreachable probes makes it fire, and the
counter stands exactly at MAX_TIMEOUTS on that final probe: the restart
is issued on the probe that brings the consecutive-failure count to the
threshold and not before. -/
theorem restart_fires_exactly_at_threshold :
    (∀ (pr : Option Nat) (l : Nat) (r : Bool) (now : Nat),
        (probeSeq (List.replicate (MAX_TIMEOUTS - 1) .netError)
          ⟨pr, 0, l, r⟩ now).2 = false) ∧
      (∀ (pr : Option Nat) (l : Nat) (r : Bool) (now : Nat),
        (probeSeq (List.replicate MAX_TIMEOUTS .netError)
            ⟨pr, 0, l, r⟩ now).2 = true ∧
          (probeSeq (List.replicate MAX_TIMEOUTS .netError)
            ⟨pr, 0, l, r⟩ now).1.failed_checks = MAX_TIMEOUTS) := by
  refine ⟨fun pr l r now => ?_, fun pr l r now => ⟨?_, ?_⟩⟩ <;> rfl

/-! ### C1: stop-before-start -/

/-- C1 counterexample: when the graceful termination sequence raises and
the fallback kill() also raises (both exceptions are swallowed by the
bare except clauses at watchdog.py lines 82 and 85), start_bot clears
the handle and spawns the new child while the old process is still
alive: afterwards pid 4 and pid 9 are both live, so the supervisor does
not guarantee that the existing process is fully stopped before the new
one is spawned. -/
theorem stop_before_start_cx :
    (start_bot ⟨⟨false, true⟩, some 9, 50⟩ ⟨some 4, 0, 0, true⟩
        (fun q => decide (q = 4))).2 4 = true ∧
      (start_bot ⟨⟨false, true⟩, some 9, 50⟩ ⟨some 4, 0, 0, true⟩
        (fun q => decide (q = 4))).2 9 = true ∧
      (start_bot ⟨⟨false, true⟩, some 9, 50⟩ ⟨some 4, 0, 0, true⟩
        (fun q => decide (q = 4))).1.process = some 9 := by
  decide

/-- C1 amended: whenever start_bot is invoked while a process handle is
held, stop_bot runs to completion before the spawn, and provided at
least one of the two termination attempts succeeds (the graceful
taskkill / os.kill plus wait sequence, or the fallback kill()), the
existing process is not alive and the handle is cleared before the new
process is spawned, and it stays dead after the new child (a fresh pid)
is spawned and reported alive; only when both attempts raise (both
swallowed) can the old process survive. -/
theorem stop_before_start (ev : StartEv) (st : GuardianState)
    (pt : ProcTable) (p : Nat) (hp : st.process = some p)
    (hk : ev.stopEv.gracefulOk = true ∨ ev.stopEv.killRaises = false) :
    (stop_bot ev.stopEv st pt).2 p = false ∧
      (stop_bot ev.stopEv st pt).1.process = none ∧
      ∀ q, ev.spawn = some q → q ≠ p →
        (start_bot ev st pt).1.process = some q ∧
          (start_bot ev st pt).2 q = true ∧
          (start_bot ev st pt).2 p = false := by
  have hdead : (stop_bot ev.stopEv st pt).2 p = false := by
    unfold stop_bot
    rw [hp]
    rcases hk with h | h
    · simp [h, killPid]
    · by_cases hg : ev.stopEv.gracefulOk <;> simp [hg, h, killPid]
  refine ⟨hdead, stop_bot_handle_none ev.stopEv st pt, ?_⟩
  intro q hq hqp
  refine ⟨(start_bot_spawn_some ev st pt q hq).1,
    (start_bot_spawn_some ev st pt q hq).2.2.2, ?_⟩
  unfold start_bot
  have hsome : st.process.isSome = true := by rw [hp]; rfl
  simp only [hsome, if_pos, hq]
  simpa [spawnPid, hqp, Ne.symm hqp] using hdead

/-- Witness for C1 amended: concrete supervisor holding pid 4, graceful
stop raising but kill() succeeding, new child pid 9. -/
theorem stop_before_start_spot :
    (stop_bot ⟨false, false⟩ ⟨some 4, 2, 10, true⟩
        (fun q => decide (q = 4))).2 4 = false ∧
      (stop_bot ⟨false, false⟩ ⟨some 4, 2, 10, true⟩
        (fun q => decide (q = 4))).1.process = none ∧
      (start_bot ⟨⟨false, false⟩, some 9, 50⟩ ⟨some 4, 2, 10, true⟩
        (fun q => decide (q = 4))).1.process = some 9 ∧
      (start_bot ⟨⟨false, false⟩, some 9, 50⟩ ⟨some 4, 2, 10, true⟩
        (fun q => decide (q = 4))).2 9 = true ∧
      (start_bot ⟨⟨false, false⟩, some 9, 50⟩ ⟨some 4, 2, 10, true⟩
        (fun q => decide (q = 4))).2 4 = false := by
  have h := stop_before_start ⟨⟨false, false⟩, some 9, 50⟩
    ⟨some 4, 2, 10, true⟩ (fun q => decide (q = 4)) 4 rfl (Or.inr rfl)
  exact ⟨h.1, h.2.1, (h.2.2 9 rfl (by decide)).1, (h.2.2 9 rfl (by decide)).2.1,
    (h.2.2 9 rfl (by decide)).2.2⟩

/-! ### C3: the staleness clock is never consulted -/

/-- C3 counterexample: a tick at time 700 with a live process, a zeroed
failure counter and last_success_time 0, so 700 seconds without a
genuine success, well past STALE_DATA_THRESHOLD = 600; the probe of the
tick raises a network error, yet run issues no restart (the handle
still holds pid 7 and the counter merely moves to 1): the restart
decision is not the claimed disjunction, because STALE_DATA_THRESHOLD
is defined at watchdog.py line 37 but never consulted in run. -/
theorem staleness_ignored_cx :
    700 - (⟨some 7, 0, 0, true⟩ : GuardianState).last_success_time ≥
        STALE_DATA_THRESHOLD ∧
      (⟨some 7, 0, 0, true⟩ : GuardianState).failed_checks < MAX_TIMEOUTS ∧
      (runIter (.normal ⟨⟨true, false⟩, some 8, 700⟩ .netError 700
          ⟨⟨true, false⟩, some 8, 700⟩) ⟨some 7, 0, 0, true⟩
          (fun q => decide (q = 7))).1.process = some 7 ∧
      (runIter (.normal ⟨⟨true, false⟩, some 8, 700⟩ .netError 700
          ⟨⟨true, false⟩, some 8, 700⟩) ⟨some 7, 0, 0, true⟩
          (fun q => decide (q = 7))).1.failed_checks = 1 := by
  decide

/-- C3 amended: the restart decision of run is solely "the probe failed
and failed_checks has reached MAX_TIMEOUTS"; the staleness condition is
absent, so at a tick with a live process whose probe either succeeds or
leaves the counter below MAX_TIMEOUTS, the iteration is exactly the
check_health update and no restart occurs, however large the gap
between the current time and last_success_time. -/
theorem restart_decision_ignores_staleness (dr : StartEv)
    (probe : HttpOutcome) (pn : Nat) (fr : StartEv) (st : GuardianState)
    (pt : ProcTable) (halive : pollDead st pt = false)
    (hbelow : (check_health probe st pn).1 = true ∨
      (check_health probe st pn).2.failed_checks < MAX_TIMEOUTS) :
    (runIter (.normal dr probe pn fr) st pt).1 =
        (check_health probe st pn).2 ∧
      (runIter (.normal dr probe pn fr) st pt).1.process = st.process := by
  have hcond : ¬((check_health probe st pn).1 = false ∧
      MAX_TIMEOUTS ≤ (check_health probe st pn).2.failed_checks) := by
    rcases hbelow with h | h
    · intro hc
      rw [h] at hc
      exact Bool.noConfusion hc.1
    · intro hc
      exact absurd hc.2 (Nat.not_le_of_lt h)
  have hres : (runIter (.normal dr probe pn fr) st pt).1 =
      (check_health probe st pn).2 := by
    unfold runIter
    simp [halive, hcond]
  exact ⟨hres, by
    rw [hres]
    exact (check_health_preserves_handle probe st pn).1⟩

/-- Witness for C3 amended: live pid 7, probe raising a network error at
time 10000 against last_success_time 0 (staleness 10000 seconds): no
restart, the handle still holds pid 7. -/
theorem restart_decision_ignores_staleness_spot :
    (runIter (.normal ⟨⟨true, false⟩, some 8, 10000⟩ .netError 10000
          ⟨⟨true, false⟩, some 8, 10000⟩) ⟨some 7, 0, 0, true⟩
          (fun q => decide (q = 7))).1 =
        (check_health .netError ⟨some 7, 0, 0, true⟩ 10000).2 ∧
      (runIter (.normal ⟨⟨true, false⟩, some 8, 10000⟩ .netError 10000
          ⟨⟨true, false⟩, some 8, 10000⟩) ⟨some 7, 0, 0, true⟩
          (fun q => decide (q = 7))).1.process = some 7 := by
  have h := restart_decision_ignores_staleness ⟨⟨true, false⟩, some 8, 10000⟩
    .netError 10000 ⟨⟨true, false⟩, some 8, 10000⟩ ⟨some 7, 0, 0, true⟩
    (fun q => decide (q = 7)) (by decide) (Or.inr (by decide))
  exact ⟨h.1, h.2⟩

/-! ### C4: a dead process forces a restart, but the probe still runs -/

/-- C4 counterexample: at a tick where the held pid 7 is dead, run does
restart immediately (pid 8 is installed), but the health probe of that
tick is not skipped: its network error is fed to the failure counter,
leaving failed_checks at 1 instead of the 0 a discarded probe would
leave behind. -/
theorem dead_tick_probe_not_skipped_cx :
    (runIter (.normal ⟨⟨true, false⟩, some 8, 100⟩ .netError 100
          ⟨⟨true, false⟩, some 9, 100⟩) ⟨some 7, 0, 0, true⟩
          (fun _ => false)).1.process = some 8 ∧
      (runIter (.normal ⟨⟨true, false⟩, some 8, 100⟩ .netError 100
          ⟨⟨true, false⟩, some 9, 100⟩) ⟨some 7, 0, 0, true⟩
          (fun _ => false)).1.failed_checks = 1 := by
  decide

/-- C4 amended: when the liveness poll reports the held child dead, run
issues a restart immediately and unconditionally, whatever value the
failure counter holds; but the health probe of that tick is not
skipped: it runs against the freshly restarted state and its result is
fed to the failure counter, the whole iteration being the check_health
update of the restarted state (the threshold branch cannot fire again
in that tick because the restart zeroed the counter). -/
theorem dead_process_restarts_then_probes (dr : StartEv)
    (probe : HttpOutcome) (pn : Nat) (fr : StartEv) (st : GuardianState)
    (pt : ProcTable) (p q : Nat) (hp : st.process = some p)
    (hdead : pt p = false) (hq : dr.spawn = some q) :
    (start_bot dr st pt).1.process = some q ∧
      runIter (.normal dr probe pn fr) st pt =
        ((check_health probe (start_bot dr st pt).1 pn).2,
          (start_bot dr st pt).2) := by
  have hpoll : pollDead st pt = true := by
    unfold pollDead
    simp [hp, hdead]
  have hzero : (start_bot dr st pt).1.failed_checks = 0 :=
    (start_bot_spawn_some dr st pt q hq).2.1
  have hlt : (check_health probe (start_bot dr st pt).1 pn).2.failed_checks
      < MAX_TIMEOUTS := by
    have := check_health_failed_le probe (start_bot dr st pt).1 pn
    rw [hzero] at this
    exact Nat.lt_of_le_of_lt this (by decide)
  have hcond : ¬((check_health probe (start_bot dr st pt).1 pn).1 = false ∧
      MAX_TIMEOUTS ≤
        (check_health probe (start_bot dr st pt).1 pn).2.failed_checks) :=
    fun hc => absurd hc.2 (Nat.not_le_of_lt hlt)
  refine ⟨(start_bot_spawn_some dr st pt q hq).1, ?_⟩
  unfold runIter
  simp [hpoll, hcond]

/-- Witness for C4 amended: dead pid 7 with the counter already at 5,
restart installs pid 8, the failing probe of the tick is still fed to
the counter. -/
theorem dead_process_restarts_then_probes_spot :
    (start_bot ⟨⟨true, false⟩, some 8, 100⟩ ⟨some 7, 5, 0, true⟩
          (fun _ => false)).1.process = some 8 ∧
      runIter (.normal ⟨⟨true, false⟩, some 8, 100⟩ .netError 100
          ⟨⟨true, false⟩, some 9, 100⟩) ⟨some 7, 5, 0, true⟩
          (fun _ => false) =
        ((check_health .netError (start_bot ⟨⟨true, false⟩, some 8, 100⟩
            ⟨some 7, 5, 0, true⟩ (fun _ => false)).1 100).2,
          (start_bot ⟨⟨true, false⟩, some 8, 100⟩ ⟨some 7, 5, 0, true⟩
            (fun _ => false)).2) :=
  dead_process_restarts_then_probes ⟨⟨true, false⟩, some 8, 100⟩ .netError
    100 ⟨⟨true, false⟩, some 9, 100⟩ ⟨some 7, 5, 0, true⟩ (fun _ => false)
    7 8 rfl rfl rfl

/-! ### C5: the health classification of check_health -/

/-- C5 counterexample: the claimed classification calls a malformed 2xx
body Healthy (fail-open, not counted as a failure) and accepts any 2xx
status, but check_health counts a malformed 200 body as a failure (the
json parse raises into the blanket except, incrementing the counter)
and also fails a 201 response outright, because line 94 of watchdog.py
tests status_code == 200, not the 2xx range. -/
theorem classification_fail_open_cx :
    specClassify (.response 200 .malformed) = .healthy ∧
      (check_health (.response 200 .malformed) ⟨some 3, 0, 5, true⟩ 9).1 =
        false ∧
      (check_health (.response 200 .malformed)
          ⟨some 3, 0, 5, true⟩ 9).2.failed_checks = 1 ∧
      specClassify (.response 201 (.fieldBool true)) = .healthy ∧
      (check_health (.response 201 (.fieldBool true))
          ⟨some 3, 0, 5, true⟩ 9).1 = false := by
  decide

/-- C5 amended: for every HTTP outcome, check_health reports success
exactly on the outcomes codeClassify calls Healthy or Idle (status
exactly 200 with a boolean is_running field true or false, or with the
field missing, which fails open), and reports failure exactly on the
outcomes codeClassify calls Unreachable (timeout, connection failure,
or a 200 body that fails to parse) or Unhealthy (any status other than
200, carrying that code). -/
theorem check_health_matches_code_classification :
    ∀ (o : HttpOutcome) (st : GuardianState) (now : Nat),
      ((check_health o st now).1 = true ↔
          codeClassify o = .healthy ∨ codeClassify o = .idle) ∧
        ((check_health o st now).1 = false ↔
          codeClassify o = .unreachable ∨
            ∃ c, codeClassify o = .unhealthy c) := by
  intro o st now
  unfold check_health check_health_try codeClassify
  cases o with
  | netError => simp
  | response status body =>
      by_cases hs : status = 200 <;>
        cases body with
        | fieldBool b => cases b <;> simp [hs]
        | fieldMissing => simp [hs]
        | malformed => simp [hs]

/-! ### C8: the loop dies only by interrupt, and cleans up -/

/-- C8 counterexample: a KeyboardInterrupt iteration in which both
termination attempts of stop_bot raise (both swallowed by the bare
except clauses at watchdog.py lines 82 and 85) exits the loop with
is_running cleared and the handle released, while the held pid 6 is
still alive: the cancellation exit can leave an orphaned child, so the
unconditional no-orphaned-child part of the claim fails. -/
theorem interrupt_orphan_cx :
    (runIter (.interrupt ⟨false, true⟩) ⟨some 6, 0, 0, true⟩
          (fun q => decide (q = 6))).1.is_running = false ∧
      (runIter (.interrupt ⟨false, true⟩) ⟨some 6, 0, 0, true⟩
          (fun q => decide (q = 6))).1.process = none ∧
      (runIter (.interrupt ⟨false, true⟩) ⟨some 6, 0, 0, true⟩
          (fun q => decide (q = 6))).2 6 = true := by
  decide

/-- C8 amended: over any schedule of iteration events containing no
KeyboardInterrupt, the loop flag is_running is unchanged, so the while
loop of run never terminates on its own (in particular every unexpected
exception only logs, sleeps and continues); a KeyboardInterrupt
iteration clears is_running and releases the process handle, and when a
child was held and at least one of the two termination attempts of
stop_bot succeeds (the graceful sequence or the fallback kill()), that
child is no longer alive on exit; only when both attempts raise (both
swallowed) can the exiting loop orphan the child. -/
theorem loop_terminates_only_on_interrupt :
    (∀ (evs : List LoopEvent) (st : GuardianState) (pt : ProcTable),
        (∀ e ∈ evs, e.isInterrupt = false) →
          (runLoop evs st pt).1.is_running = st.is_running) ∧
      (∀ (sev : StopEv) (st : GuardianState) (pt : ProcTable),
        (runIter (.interrupt sev) st pt).1.is_running = false ∧
          (runIter (.interrupt sev) st pt).1.process = none) ∧
      (∀ (sev : StopEv) (st : GuardianState) (pt : ProcTable) (p : Nat),
        st.process = some p →
          sev.gracefulOk = true ∨ sev.killRaises = false →
          (runIter (.interrupt sev) st pt).2 p = false) := by
  refine ⟨?_, ?_, ?_⟩
  · intro evs
    induction evs with
    | nil => intro st pt _; rfl
    | cons e evs ih =>
        intro st pt h
        by_cases hr : st.is_running
        · have he : e.isInterrupt = false := h e (List.mem_cons_self e evs)
          have hrest := ih (runIter e st pt).1 (runIter e st pt).2
            (fun x hx => h x (List.mem_cons_of_mem e hx))
          calc (runLoop (e :: evs) st pt).1.is_running
              = (runLoop evs (runIter e st pt).1
                  (runIter e st pt).2).1.is_running := by
                simp [runLoop, hr]
            _ = (runIter e st pt).1.is_running := hrest
            _ = st.is_running := runIter_preserves_run_flag e st pt he
        · simp [runLoop, hr]
  · intro sev st pt
    unfold runIter
    exact ⟨(stop_bot_preserves_counters sev
        { st with is_running := false } pt).2.2,
      stop_bot_handle_none sev { st with is_running := false } pt⟩
  · intro sev st pt p hp hg
    unfold runIter stop_bot
    rcases hg with h | h
    · simp [hp, h, killPid]
    · by_cases hgk : sev.gracefulOk = true <;> simp [hp, hgk, h, killPid]

/-- Witness for C8: two unexpected-exception iterations leave the loop
running, a concrete interrupt halts it with the handle released, and
the held pid 6 is dead after a graceful interrupt shutdown. -/
theorem loop_terminates_only_on_interrupt_spot :
    (runLoop [.unexpected, .unexpected] ⟨some 6, 0, 0, true⟩
          (fun q => decide (q = 6))).1.is_running = true ∧
      (runIter (.interrupt ⟨true, false⟩) ⟨some 6, 0, 0, true⟩
          (fun q => decide (q = 6))).1.is_running = false ∧
      (runIter (.interrupt ⟨true, false⟩) ⟨some 6, 0, 0, true⟩
          (fun q => decide (q = 6))).1.process = none ∧
      (runIter (.interrupt ⟨true, false⟩) ⟨some 6, 0, 0, true⟩
          (fun q => decide (q = 6))).2 6 = false := by
  refine ⟨loop_terminates_only_on_interrupt.1 [.unexpected, .unexpected]
      ⟨some 6, 0, 0, true⟩ (fun q => decide (q = 6)) (by decide),
    (loop_terminates_only_on_interrupt.2.1 ⟨true, false⟩
      ⟨some 6, 0, 0, true⟩ (fun q => decide (q = 6))).1,
    (loop_terminates_only_on_interrupt.2.1 ⟨true, false⟩
      ⟨some 6, 0, 0, true⟩ (fun q => decide (q = 6))).2,
    loop_terminates_only_on_interrupt.2.2 ⟨true, false⟩
      ⟨some 6, 0, 0, true⟩ (fun q => decide (q = 6)) 6 rfl (Or.inl rfl)⟩

end Watchdog
